import Mathlib

/-! Solana chain access (`server/core/blockchain/blockchain_solana.go`)

A shallow embedding of `SolanaChainAccess`: the balance query `QueryCoin`, the two
transfer operations `TransferCoin` and `TransferToken`, the status query
`ConfirmTransaction` and the fee helper `fillFees`.

The Go code talks to three collaborators that are not part of the file:

* the `solana-go` library (key parsing, address derivation, transaction assembly and
  signing), taken as the parameter `SolanaLib`;
* the RPC / websocket endpoints, taken as the parameter `Network`: one field per remote
  call, holding the outcome that call has;
* the configuration record `config.BlockchainConfig`.

The two transfers return, next to their Go result, the ordered list of collaborator calls
they made (`Call`), so that statements such as "nothing was submitted" or "the instruction
list handed to the assembler" can be read off a run.
-/

namespace Blockchain

/-! ## Go values -/

/-- Go `error` values met in this file. `ErrNotFound` is the sentinel `rpc.ErrNotFound`,
`errorsNew m` is `errors.New(m)`, `NumError` is the `*strconv.NumError` of a failed
`strconv.ParseInt` (`range = true` for `ErrRange`, `false` for `ErrSyntax`), and `lib m`
is any other error handed back by a library or the network. -/
inductive GoError where
  | ErrNotFound
  | errorsNew (msg : String)
  | NumError (fn num : String) (range : Bool)
  | lib (msg : String)
  deriving DecidableEq, Repr

/-- A `solana.PublicKey` (32 bytes), compared with `==` in the source. -/
structure PublicKey where
  val : Nat
  deriving DecidableEq, Repr

/-- A `solana.PrivateKey`. -/
structure PrivateKey where
  val : Nat
  deriving DecidableEq, Repr

/-- A `solana.Signature`, the transaction identifier. -/
structure Signature where
  val : Nat
  deriving DecidableEq, Repr

/-- A `solana.Hash`, the recent blockhash. -/
structure Hash where
  val : Nat
  deriving DecidableEq, Repr

/-- The value of an account-info lookup (`result.Value`), only logged by the source. -/
structure AccountInfo where
  lamports : Nat
  deriving DecidableEq, Repr

/-- A `*rpc.GetTransactionResult`, only tested against `nil` by the source. -/
structure GetTransactionResult where
  slot : Nat
  deriving DecidableEq, Repr

/-- An open websocket client (`*ws.Client`). -/
structure WsClient where
  endpoint : String
  deriving DecidableEq, Repr

/-- The instructions the source builds, each recorded with the arguments of its builder:
`computebudget.NewSetComputeUnitPriceInstructionBuilder().SetMicroLamports(_)`,
`computebudget.NewSetComputeUnitLimitInstructionBuilder().SetUnits(_)`,
`associatedtokenaccount.NewCreateInstruction(payer, wallet, mint)`,
`token.NewTransferInstruction(amount, source, destination, owner, signers)` and
`token.NewTransferCheckedInstruction(amount, decimals, source, mint, destination, owner,
signers)`. -/
inductive Instruction where
  | SetComputeUnitPrice (microLamports : Nat)
  | SetComputeUnitLimit (units : Nat)
  | CreateAssociatedTokenAccount (payer wallet mint : PublicKey)
  | Transfer (amount : Nat) (source destination owner : PublicKey)
      (signers : List PublicKey)
  | TransferChecked (amount : Nat) (decimals : Nat)
      (source mint destination owner : PublicKey) (signers : List PublicKey)
  deriving DecidableEq, Repr

/-- A `*solana.Transaction`: instruction list, recency checkpoint, fee payer, and the
keys that have signed so far. -/
structure Transaction where
  instructions : List Instruction
  blockhash : Hash
  payer : PublicKey
  signedBy : List PublicKey
  deriving DecidableEq, Repr

/-- The fields of `config.BlockchainConfig` that the source reads. The declaration of the
record is not in the file; the two numeric defaults are kept as integers and the source's
`uint64(...)` conversions are applied where the source applies them. -/
structure BlockchainConfig where
  Endpoint : String
  WsEndpoint : String
  Funder : String
  GasPrice : Int
  GasLimit : Int
  RateLimit : Int
  deriving DecidableEq, Repr

/-- The `solana-go` primitives used by the source. -/
structure SolanaLib where
  PrivateKeyFromBase58 : String → Except GoError PrivateKey
  PublicKeyFromBase58 : String → Except GoError PublicKey
  SignatureFromBase58 : String → Except GoError Signature
  publicKey : PrivateKey → PublicKey
  FindAssociatedTokenAddress : PublicKey → PublicKey → Except GoError PublicKey
  NewTransaction : List Instruction → Hash → PublicKey → Except GoError Transaction
  Sign : Transaction → (PublicKey → Option PrivateKey) → Except GoError Transaction
  SignatureString : Signature → String

/-- The outcome of each remote call. `GetBalance` reports a `uint64`,
`GetTokenAccountBalance` reports the amount as a decimal string (`out.Value.Amount`),
`GetFees` reports `LamportsPerSignature` (a `uint64`), `GetTransaction` returns a Go pair
`(result, err)` in which either component may be `nil`. -/
structure Network where
  GetBalance : PublicKey → Except GoError Nat
  GetTokenAccountBalance : PublicKey → Except GoError String
  GetAccountInfo : PublicKey → Except GoError AccountInfo
  GetFees : Except GoError Nat
  GetLatestBlockhash : Except GoError Hash
  GetTransaction : Signature → Option GetTransactionResult × Option GoError
  SendTransaction : Transaction → Except GoError Signature
  wsConnect : String → Except GoError WsClient
  SendAndConfirmTransaction : WsClient → Transaction → Except GoError Signature

/-- One collaborator call made during a run, with its arguments. -/
inductive Call where
  | GetBalance (account : PublicKey)
  | GetTokenAccountBalance (account : PublicKey)
  | GetAccountInfo (account : PublicKey)
  | GetFees
  | GetLatestBlockhash
  | GetTransaction (sig : Signature)
  | NewTransaction (instructions : List Instruction) (blockhash : Hash) (payer : PublicKey)
  | Sign (tx : Transaction)
  | wsConnect (endpoint : String)
  | SendTransaction (tx : Transaction)
  | SendAndConfirmTransaction (tx : Transaction)
  deriving DecidableEq, Repr

/-- The Go result `(string, error)` of a transfer, with the calls made. -/
structure Outcome where
  ret : String
  err : Option GoError
  calls : List Call
  deriving DecidableEq, Repr

/-! ## Integer conversions -/

/-- Go conversion `uint64(x)` of an integer value: reduction modulo `2^64`. -/
def toUint64 (x : Int) : Nat := (x % 2 ^ 64).toNat

/-- Go conversion `uint32(x)` of a `uint64`. -/
def toUint32 (x : Nat) : Nat := x % 2 ^ 32

/-- Go conversion `uint8(x)` of a `uint64`. -/
def toUint8 (x : Nat) : Nat := x % 2 ^ 8

/-- Go conversion `int64(x)` of a `uint64`: the two's complement reading. -/
def toInt64 (x : Nat) : Int :=
  if x % 2 ^ 64 < 2 ^ 63 then ((x % 2 ^ 64 : Nat) : Int) else ((x % 2 ^ 64 : Nat) : Int) - 2 ^ 64

/-- The method `(*big.Int).Uint64`: the low 64 bits of the absolute value. -/
def bigUint64 (x : Int) : Nat := x.natAbs % 2 ^ 64

/-- Value of a decimal digit character. -/
def digitVal (c : Char) : Option Nat :=
  if 48 ≤ c.toNat ∧ c.toNat ≤ 57 then some (c.toNat - 48) else none

/-- The digit loop of `strconv.ParseUint(s, 10, 64)`, started at `n`. A character that
is not a decimal digit is a syntax error (`.error false`); a value that leaves the
`uint64` range is a range error (`.error true`), raised at the digit where it happens. -/
def parseUintLoop : List Char → Nat → Except Bool Nat
  | [], n => .ok n
  | c :: cs, n =>
    match digitVal c with
    | none => .error false
    | some d =>
      if n ≥ (2 ^ 64 - 1) / 10 + 1 then .error true
      else if n * 10 + d > 2 ^ 64 - 1 then .error true
      else parseUintLoop cs (n * 10 + d)

/-- The call `strconv.ParseInt(s, 10, 64)`: an optional sign followed by at least one
decimal digit; a value outside `[-2^63, 2^63 - 1]` is a range error. -/
def ParseInt (s : String) : Except GoError Int :=
  match s.data with
  | [] => .error (.NumError "ParseInt" s false)
  | c :: cs =>
    let neg := c == '-'
    let body := if c == '+' || c == '-' then cs else c :: cs
    match body with
    | [] => .error (.NumError "ParseInt" s false)
    | _ :: _ =>
      match parseUintLoop body 0 with
      | .error false => .error (.NumError "ParseInt" s false)
      | .error true => .error (.NumError "ParseInt" s true)
      | .ok un =>
        if !neg && un ≥ 2 ^ 63 then .error (.NumError "ParseInt" s true)
        else if neg && un > 2 ^ 63 then .error (.NumError "ParseInt" s true)
        else .ok (if neg then -(un : Int) else (un : Int))

/-! ## Operations -/

/-- `SolanaChainAccess.fillFees`: priority fee, compute ceiling, and the error of the
live fee query. -/
def fillFees (net : Network) (cfg : BlockchainConfig) : Nat × Nat × Option GoError :=
  match net.GetFees with
  | .error err => (toUint64 cfg.GasPrice, toUint64 cfg.GasLimit, some err)
  | .ok lamportsPerSignature => (lamportsPerSignature, toUint64 cfg.GasLimit, none)

/-- `SolanaChainAccess.QueryCoin`. -/
def QueryCoin (lib : SolanaLib) (net : Network) (address : String) : Except GoError Int :=
  match lib.PublicKeyFromBase58 address with
  | .error err => .error err
  | .ok account =>
    match net.GetBalance account with
    | .error err => .error err
    | .ok out => .ok (toInt64 out)

/-- `SolanaChainAccess.ConfirmTransaction`, returning the Go pair `(found, err)`. -/
def ConfirmTransaction (lib : SolanaLib) (net : Network) (txhash : String) :
    Bool × Option GoError :=
  match lib.SignatureFromBase58 txhash with
  | .error err => (false, some err)
  | .ok sig =>
    match net.GetTransaction sig with
    | (_, some err) =>
      if err = GoError.ErrNotFound then (false, none) else (false, some err)
    | (none, none) => (false, none)
    | (some _, none) => (true, none)

/-- The signer lookup passed to `tx.Sign` by both transfers. -/
def signerLookup (lib : SolanaLib) (feePayer fromPrikey : PrivateKey) (key : PublicKey) :
    Option PrivateKey :=
  if lib.publicKey feePayer = key then some feePayer
  else if lib.publicKey fromPrikey = key then some fromPrikey
  else none

/-- `SolanaChainAccess.TransferCoin`. -/
def TransferCoin (lib : SolanaLib) (net : Network) (cfg : BlockchainConfig)
    (from_ to_ : String) (value : Int) : Outcome :=
  match lib.PrivateKeyFromBase58 cfg.Funder with
  | .error err => ⟨"", some err, []⟩
  | .ok feePayer =>
  match lib.PrivateKeyFromBase58 from_ with
  | .error err => ⟨"", some err, []⟩
  | .ok fromPrikey =>
  match lib.PublicKeyFromBase58 to_ with
  | .error err => ⟨"", some err, []⟩
  | .ok toAddr =>
  let instruction0 := Instruction.Transfer (bigUint64 value) (lib.publicKey fromPrikey) toAddr
    (lib.publicKey fromPrikey) [lib.publicKey feePayer, lib.publicKey fromPrikey]
  match net.GetLatestBlockhash with
  | .error err => ⟨"", some err, [Call.GetLatestBlockhash]⟩
  | .ok recent =>
  match lib.NewTransaction [instruction0] recent (lib.publicKey feePayer) with
  | .error err =>
    ⟨"", some err,
      [Call.GetLatestBlockhash,
       Call.NewTransaction [instruction0] recent (lib.publicKey feePayer)]⟩
  | .ok tx =>
  match lib.Sign tx (signerLookup lib feePayer fromPrikey) with
  | .error err =>
    ⟨"", some err,
      [Call.GetLatestBlockhash,
       Call.NewTransaction [instruction0] recent (lib.publicKey feePayer), Call.Sign tx]⟩
  | .ok signed =>
  match net.SendTransaction signed with
  | .error err =>
    ⟨"", some err,
      [Call.GetLatestBlockhash,
       Call.NewTransaction [instruction0] recent (lib.publicKey feePayer), Call.Sign tx,
       Call.SendTransaction signed]⟩
  | .ok sig =>
    ⟨lib.SignatureString sig, none,
      [Call.GetLatestBlockhash,
       Call.NewTransaction [instruction0] recent (lib.publicKey feePayer), Call.Sign tx,
       Call.SendTransaction signed]⟩

/-- `SolanaChainAccess.TransferToken`. The comments give the source lines. -/
def TransferToken (lib : SolanaLib) (net : Network) (cfg : BlockchainConfig)
    (from_ to_ : String) (value : Int) (contractAddress : String) (decimals : Nat) :
    Outcome :=
  -- 212-228: funder, source secret, mint
  match lib.PrivateKeyFromBase58 cfg.Funder with
  | .error err => ⟨"", some err, []⟩
  | .ok feePayer =>
  match lib.PrivateKeyFromBase58 from_ with
  | .error err => ⟨"", some err, []⟩
  | .ok fromPrikey =>
  match lib.PublicKeyFromBase58 contractAddress with
  | .error err => ⟨"", some err, []⟩
  | .ok mintAddr =>
  -- 230-251: source associated account and balance pre-check
  match lib.FindAssociatedTokenAddress (lib.publicKey fromPrikey) mintAddr with
  | .error err => ⟨"", some err, []⟩
  | .ok fromTokenAccount =>
  let c1 := [Call.GetTokenAccountBalance fromTokenAccount]
  match net.GetTokenAccountBalance fromTokenAccount with
  | .error err => ⟨"cannot get from account balance", some err, c1⟩
  | .ok out =>
  match ParseInt out with
  | .error err => ⟨"invalid from token amount", some err, c1⟩
  | .ok amount =>
  if value > amount then
    ⟨"insufficient token", some (GoError.errorsNew "insufficient token"), c1⟩
  else
  -- 252-256: destination
  match lib.PublicKeyFromBase58 to_ with
  | .error err => ⟨"", some err, c1⟩
  | .ok toAddr =>
  -- 257-267: fee directives, the error of fillFees is dropped
  let fees := fillFees net cfg
  let c2 := c1 ++ [Call.GetFees]
  let feesIx := Instruction.SetComputeUnitPrice fees.1
  let limitIx := Instruction.SetComputeUnitLimit (toUint32 fees.2.1)
  let instructions := [feesIx, limitIx]
  -- 269-289: destination associated account, created when the lookup errors
  match lib.FindAssociatedTokenAddress toAddr mintAddr with
  | .error err => ⟨"", some err, c2⟩
  | .ok toTokenAccount =>
  let c3 := c2 ++ [Call.GetTokenAccountBalance toTokenAccount,
    Call.GetAccountInfo toTokenAccount]
  let instructions :=
    match net.GetAccountInfo toTokenAccount with
    | .error _ =>
      instructions ++
        [Instruction.CreateAssociatedTokenAccount (lib.publicKey feePayer) toAddr mintAddr]
    | .ok _ => instructions
  -- 290-305: signer list and the transfer-checked instruction
  let signers :=
    if lib.publicKey feePayer = lib.publicKey fromPrikey then
      [lib.publicKey feePayer, lib.publicKey fromPrikey]
    else
      [lib.publicKey feePayer]
  let instruction0 := Instruction.TransferChecked (bigUint64 value) (toUint8 decimals)
    fromTokenAccount mintAddr toTokenAccount (lib.publicKey fromPrikey) signers
  let instructions := instructions ++ [instruction0]
  -- 306-333: checkpoint, assembly, signing
  let c4 := c3 ++ [Call.GetLatestBlockhash]
  match net.GetLatestBlockhash with
  | .error err => ⟨"", some err, c4⟩
  | .ok recent =>
  let c5 := c4 ++ [Call.NewTransaction instructions recent (lib.publicKey feePayer)]
  match lib.NewTransaction instructions recent (lib.publicKey feePayer) with
  | .error err => ⟨"", some err, c5⟩
  | .ok tx =>
  let c6 := c5 ++ [Call.Sign tx]
  match lib.Sign tx (signerLookup lib feePayer fromPrikey) with
  | .error err => ⟨"", some err, c6⟩
  | .ok signed =>
  -- 336-351: submission
  let c7 := c6 ++ [Call.wsConnect cfg.WsEndpoint]
  match net.wsConnect cfg.WsEndpoint with
  | .error _ =>
    match net.SendTransaction signed with
    | .error err => ⟨"", some err, c7 ++ [Call.SendTransaction signed]⟩
    | .ok sig => ⟨lib.SignatureString sig, none, c7 ++ [Call.SendTransaction signed]⟩
  | .ok wsClient =>
    match net.SendAndConfirmTransaction wsClient signed with
    | .error err => ⟨"", some err, c7 ++ [Call.SendAndConfirmTransaction signed]⟩
    | .ok sig =>
      ⟨lib.SignatureString sig, none, c7 ++ [Call.SendAndConfirmTransaction signed]⟩

/-! ## Observers and sample collaborators -/

/-- The instruction lists handed to `solana.NewTransaction` during a run, in order. -/
def assembled : List Call → List (List Instruction)
  | [] => []
  | Call.NewTransaction instructions _ _ :: rest => instructions :: assembled rest
  | _ :: rest => assembled rest

/-- The Instruction Builder contract in the words of the specification: the sequence
starts with the set-priority-fee directive, continues with the set-compute-ceiling
directive, and ends with the transfer instruction. -/
def instructionBuilderContract : List Instruction → Bool
  | Instruction.SetComputeUnitPrice _ :: Instruction.SetComputeUnitLimit _ :: rest =>
    match rest.getLast? with
    | some (Instruction.Transfer _ _ _ _ _) => true
    | some (Instruction.TransferChecked _ _ _ _ _ _ _) => true
    | _ => false
  | _ => false

/-- A small library instance: the secrets `funder` and `alice`, the addresses `bob` and
`mint`, and four transaction identifiers. -/
def sampleLib : SolanaLib where
  PrivateKeyFromBase58 s :=
    if s = "funder" then .ok ⟨1⟩ else if s = "alice" then .ok ⟨2⟩
    else .error (.lib "invalid base58")
  PublicKeyFromBase58 s :=
    if s = "bob" then .ok ⟨30⟩ else if s = "mint" then .ok ⟨50⟩
    else .error (.lib "invalid base58")
  SignatureFromBase58 s :=
    if s = "sig7" then .ok ⟨7⟩ else if s = "sig8" then .ok ⟨8⟩
    else if s = "sig9" then .ok ⟨9⟩ else if s = "sig10" then .ok ⟨10⟩
    else .error (.lib "invalid base58")
  publicKey k := ⟨k.val + 10⟩
  FindAssociatedTokenAddress wallet mint := .ok ⟨wallet.val * 100 + mint.val⟩
  NewTransaction instructions recent payer :=
    if instructions = [] then .error (.lib "requires at-least one instruction")
    else .ok ⟨instructions, recent, payer, []⟩
  Sign tx lookup :=
    match lookup tx.payer with
    | some _ => .ok { tx with signedBy := [tx.payer] }
    | none => .error (.lib "signer key not found")
  SignatureString sig := if sig.val = 7 then "sig7" else "sig8"

/-- A network in which the source account of `alice` for `mint` holds 150 units, the
destination account of `bob` is absent, and every submission path works. -/
def sampleNet : Network where
  GetBalance _ := .ok 0
  GetTokenAccountBalance account :=
    if account = ⟨1250⟩ then .ok "150" else .error (.lib "could not find account")
  GetAccountInfo _ := .error .ErrNotFound
  GetFees := .ok 5000
  GetLatestBlockhash := .ok ⟨99⟩
  GetTransaction sig :=
    if sig.val = 7 then (some ⟨1⟩, none)
    else if sig.val = 8 then (none, some .ErrNotFound)
    else if sig.val = 9 then (none, none)
    else (none, some (.lib "rpc timeout"))
  SendTransaction _ := .ok ⟨7⟩
  wsConnect endpoint := .ok ⟨endpoint⟩
  SendAndConfirmTransaction _ _ := .ok ⟨8⟩

/-- A configuration whose funder is the secret `funder`. -/
def sampleCfg : BlockchainConfig :=
  { Endpoint := "https://rpc", WsEndpoint := "wss://rpc", Funder := "funder",
    GasPrice := 1000, GasLimit := 200000, RateLimit := 0 }

/-- The amounts encoded in the transfer-checked instructions of a list. -/
def encodedAmounts : List Instruction → List Nat
  | [] => []
  | Instruction.TransferChecked amount _ _ _ _ _ _ :: rest => amount :: encodedAmounts rest
  | _ :: rest => encodedAmounts rest

/-- The signer lists attached to the transfer-checked instructions of a list. -/
def encodedSigners : List Instruction → List (List PublicKey)
  | [] => []
  | Instruction.TransferChecked _ _ _ _ _ _ signers :: rest => signers :: encodedSigners rest
  | _ :: rest => encodedSigners rest

/-- The instruction list of the sample token transfer: 100 units of `mint` from `alice`
to `bob`, whose associated account is absent. -/
def sampleInstructions : List Instruction :=
  [Instruction.SetComputeUnitPrice 5000, Instruction.SetComputeUnitLimit 200000,
   Instruction.CreateAssociatedTokenAccount ⟨11⟩ ⟨30⟩ ⟨50⟩,
   Instruction.TransferChecked 100 6 ⟨1250⟩ ⟨50⟩ ⟨3050⟩ ⟨12⟩ [⟨11⟩]]

/-- The sample token transfer as assembled by `sampleLib`. -/
def sampleTx : Transaction := ⟨sampleInstructions, ⟨99⟩, ⟨11⟩, []⟩

/-- The sample token transfer as signed by `sampleLib`. -/
def sampleSigned : Transaction := ⟨sampleInstructions, ⟨99⟩, ⟨11⟩, [⟨11⟩]⟩

/-- The sample network with the live fee query failing. -/
def sampleNetFeesDown : Network :=
  { sampleNet with GetFees := .error (.lib "rpc down") }

/-- The sample network in which the destination account of `bob` exists and holds 25
units, while the account-info lookup fails because the node is behind. -/
def sampleNetBehind : Network :=
  { sampleNet with
    GetTokenAccountBalance := fun account => if account = ⟨1250⟩ then .ok "150" else .ok "25"
    GetAccountInfo := fun _ => .error (.lib "node is behind") }

/-! ## Conversions -/

/-- A value in the `uint64` range is unchanged by `uint64(...)`. -/
theorem toUint64_of_range (x : Int) (h0 : 0 ≤ x) (h1 : x < 2 ^ 64) :
    ((toUint64 x : Nat) : Int) = x := by
  unfold toUint64
  rw [Int.emod_eq_of_lt h0 h1]
  exact Int.toNat_of_nonneg h0

/-- A non-negative value below `2^64` is unchanged by `(*big.Int).Uint64`. -/
theorem bigUint64_of_range (x : Int) (h0 : 0 ≤ x) (h1 : x < 2 ^ 64) :
    ((bigUint64 x : Nat) : Int) = x := by
  unfold bigUint64
  have h2 : x.natAbs < 2 ^ 64 := by omega
  rw [Nat.mod_eq_of_lt h2]
  omega

/-- A successful `strconv.ParseInt(s, 10, 64)` lies in the `int64` range. -/
theorem ParseInt_range (s : String) (a : Int) (h : ParseInt s = .ok a) :
    -2 ^ 63 ≤ a ∧ a < 2 ^ 63 := by
  unfold ParseInt at h
  split at h
  · simp at h
  · simp only at h
    split at h
    · simp at h
    · split at h
      · simp at h
      · simp at h
      · rename_i un _
        split at h
        · simp at h
        · split at h
          · simp at h
          · simp only [Except.ok.injEq] at h
            subst h
            simp only [Bool.and_eq_true, Bool.not_eq_true', decide_eq_true_eq, not_and,
              Bool.not_eq_false, beq_iff_eq, not_le, ge_iff_le, gt_iff_lt, not_lt] at *
            split <;> rename_i hneg <;> simp [hneg] at * <;> omega

/-- Below `2^63` the conversion `int64(...)` of a `uint64` keeps the value. -/
theorem toInt64_of_lt (v : Nat) (h : v < 2 ^ 63) : toInt64 v = (v : Int) := by
  unfold toInt64
  have h2 : v % 2 ^ 64 = v := Nat.mod_eq_of_lt (by omega)
  rw [h2, if_pos h]
/-! ## ConfirmTransaction -/

/-- C1: `ConfirmTransaction` is tri-state over the transaction lookup. For an identifier
that parses as a signature: a lookup that reports `rpc.ErrNotFound`, or that returns a
nil result without error, gives `(false, nil)`; a lookup that returns a transaction gives
`(true, nil)`; a lookup that fails with any other error gives `found = false` with that
error. An identifier that does not parse gives `found = false` with the parse error. -/
theorem ConfirmTransaction_tristate (lib : SolanaLib) (net : Network) (txhash : String) :
    (∀ sig, lib.SignatureFromBase58 txhash = .ok sig →
      ((net.GetTransaction sig).2 = some GoError.ErrNotFound →
        ConfirmTransaction lib net txhash = (false, none)) ∧
      (net.GetTransaction sig = (none, none) →
        ConfirmTransaction lib net txhash = (false, none)) ∧
      (∀ r, net.GetTransaction sig = (some r, none) →
        ConfirmTransaction lib net txhash = (true, none)) ∧
      (∀ e, (net.GetTransaction sig).2 = some e → e ≠ GoError.ErrNotFound →
        ConfirmTransaction lib net txhash = (false, some e))) ∧
    (∀ e, lib.SignatureFromBase58 txhash = .error e →
      ConfirmTransaction lib net txhash = (false, some e)) := by
  refine ⟨fun sig hsig => ⟨?_, ?_, ?_, ?_⟩, ?_⟩
  · intro h
    unfold ConfirmTransaction
    rw [hsig]
    rcases hq : net.GetTransaction sig with ⟨r, e⟩
    rw [hq] at h
    simp only at h
    subst h
    simp [hq]
  · intro h
    unfold ConfirmTransaction
    rw [hsig]
    simp only [h]
  · intro r h
    unfold ConfirmTransaction
    rw [hsig]
    simp only [h]
  · intro e h hne
    unfold ConfirmTransaction
    rw [hsig]
    rcases hq : net.GetTransaction sig with ⟨r, e0⟩
    rw [hq] at h
    simp only at h
    subst h
    simp [hq, hne]
  · intro e h
    unfold ConfirmTransaction
    rw [h]

/-- C1 at the sample identifiers: `sig8` is reported not-found, `sig9` has an empty
result, `sig7` is found, `sig10` meets a timeout, and `???` does not parse. -/
theorem ConfirmTransaction_tristate_witness :
    ConfirmTransaction sampleLib sampleNet "sig8" = (false, none) ∧
    ConfirmTransaction sampleLib sampleNet "sig9" = (false, none) ∧
    ConfirmTransaction sampleLib sampleNet "sig7" = (true, none) ∧
    ConfirmTransaction sampleLib sampleNet "sig10" = (false, some (GoError.lib "rpc timeout")) ∧
    ConfirmTransaction sampleLib sampleNet "???"
      = (false, some (GoError.lib "invalid base58")) :=
  ⟨((ConfirmTransaction_tristate sampleLib sampleNet "sig8").1 ⟨8⟩ rfl).1 rfl,
   ((ConfirmTransaction_tristate sampleLib sampleNet "sig9").1 ⟨9⟩ rfl).2.1 rfl,
   ((ConfirmTransaction_tristate sampleLib sampleNet "sig7").1 ⟨7⟩ rfl).2.2.1 ⟨1⟩ rfl,
   ((ConfirmTransaction_tristate sampleLib sampleNet "sig10").1 ⟨10⟩ rfl).2.2.2
     (GoError.lib "rpc timeout") rfl (by decide),
   (ConfirmTransaction_tristate sampleLib sampleNet "???").2 (GoError.lib "invalid base58") rfl⟩

/-! ## TransferToken: balance pre-check -/

/-- C2 (as stated) fails: the source account reports the balance `9223372036854775808`
(`2^63`), the balance query succeeds and the requested amount `2^64` exceeds it, yet
`TransferToken` returns the range error of `strconv.ParseInt` with the text
`invalid from token amount`, not the insufficient-funds error. -/
theorem TransferToken_insufficient_counterexample :
    ({ sampleNet with GetTokenAccountBalance := fun _ => .ok "9223372036854775808" } :
        Network).GetTokenAccountBalance ⟨1250⟩ = .ok "9223372036854775808" ∧
    parseUintLoop "9223372036854775808".data 0 = .ok 9223372036854775808 ∧
    (18446744073709551616 : Int) > 9223372036854775808 ∧
    TransferToken sampleLib
        { sampleNet with GetTokenAccountBalance := fun _ => .ok "9223372036854775808" }
        sampleCfg "alice" "bob" 18446744073709551616 "mint" 6
      = ⟨"invalid from token amount",
          some (GoError.NumError "ParseInt" "9223372036854775808" true),
          [Call.GetTokenAccountBalance ⟨1250⟩]⟩ ∧
    GoError.NumError "ParseInt" "9223372036854775808" true
      ≠ GoError.errorsNew "insufficient token" :=
  ⟨rfl, rfl, by decide, rfl, by decide⟩

/-- C2 (amended): when funder, source secret and asset identifier are well formed, the
balance query of the source's associated account succeeds with an amount that
`strconv.ParseInt` reads as a signed 64-bit integer, and the requested amount exceeds
that amount, `TransferToken` returns the insufficient-funds error and the only call it
made is that balance query: no checkpoint fetch, assembly, signing, channel opening,
broadcast or send-and-confirm. -/
theorem TransferToken_insufficient_funds (lib : SolanaLib) (net : Network)
    (cfg : BlockchainConfig) (from_ to_ : String) (value : Int) (contractAddress : String)
    (decimals : Nat) (feePayer fromPrikey : PrivateKey) (mintAddr fromTokenAccount : PublicKey)
    (out : String) (amount : Int)
    (hFunder : lib.PrivateKeyFromBase58 cfg.Funder = .ok feePayer)
    (hFrom : lib.PrivateKeyFromBase58 from_ = .ok fromPrikey)
    (hMint : lib.PublicKeyFromBase58 contractAddress = .ok mintAddr)
    (hAta : lib.FindAssociatedTokenAddress (lib.publicKey fromPrikey) mintAddr
      = .ok fromTokenAccount)
    (hBalance : net.GetTokenAccountBalance fromTokenAccount = .ok out)
    (hParse : ParseInt out = .ok amount)
    (hExceeds : value > amount) :
    TransferToken lib net cfg from_ to_ value contractAddress decimals
      = ⟨"insufficient token", some (GoError.errorsNew "insufficient token"),
          [Call.GetTokenAccountBalance fromTokenAccount]⟩ := by
  unfold TransferToken
  simp only [hFunder, hFrom, hMint, hAta, hBalance, hParse, hExceeds, if_true]

/-- C2 (amended) at the specification's scenario: 100 units requested from a balance
of 50. -/
theorem TransferToken_insufficient_funds_witness :
    TransferToken sampleLib { sampleNet with GetTokenAccountBalance := fun _ => .ok "50" }
        sampleCfg "alice" "bob" 100 "mint" 6
      = ⟨"insufficient token", some (GoError.errorsNew "insufficient token"),
          [Call.GetTokenAccountBalance ⟨1250⟩]⟩ :=
  TransferToken_insufficient_funds sampleLib
    { sampleNet with GetTokenAccountBalance := fun _ => .ok "50" }
    sampleCfg "alice" "bob" 100 "mint" 6 ⟨1⟩ ⟨2⟩ ⟨50⟩ ⟨1250⟩ "50" 50
    rfl rfl rfl rfl rfl rfl (by decide)

/-! ## QueryCoin -/

/-- Below `2^63` the reported balance is returned unchanged. -/
theorem QueryCoin_of_lt (lib : SolanaLib) (net : Network) (address : String)
    (account : PublicKey) (v : Nat)
    (hAddr : lib.PublicKeyFromBase58 address = .ok account)
    (hBalance : net.GetBalance account = .ok v) (hv : v < 2 ^ 63) :
    QueryCoin lib net address = .ok (v : Int) := by
  unfold QueryCoin
  simp only [hAddr, hBalance, toInt64_of_lt v hv]

/-- C9 fails on the code: for the well-formed address `bob` and the reported balance
`2^63` (a `uint64`), `QueryCoin` succeeds but returns `-2^63`, because the balance is
passed through `int64(...)` before `big.NewInt`. -/
theorem QueryCoin_wraps_at_two_pow_63 :
    ({ sampleNet with GetBalance := fun _ => .ok 9223372036854775808 } :
        Network).GetBalance ⟨30⟩ = .ok 9223372036854775808 ∧
    (9223372036854775808 : Nat) < 2 ^ 64 ∧
    QueryCoin sampleLib { sampleNet with GetBalance := fun _ => .ok 9223372036854775808 }
        "bob" = .ok (-9223372036854775808) ∧
    (-9223372036854775808 : Int) ≠ 9223372036854775808 :=
  ⟨rfl, by decide, rfl, by decide⟩
/-! ## TransferToken: the path to assembly and to submission -/

/-- A run of `TransferToken` that hands an instruction list to `solana.NewTransaction`
has passed every earlier step, and the list is the one built in lines 257-305. -/
theorem TransferToken_assembly_inv (lib : SolanaLib) (net : Network) (cfg : BlockchainConfig)
    (from_ to_ : String) (value : Int) (contractAddress : String) (decimals : Nat)
    (instrs : List Instruction) (recent : Hash) (payer : PublicKey)
    (h : Call.NewTransaction instrs recent payer ∈
      (TransferToken lib net cfg from_ to_ value contractAddress decimals).calls) :
    ∃ feePayer fromPrikey mintAddr fromTokenAccount out amount toAddr toTokenAccount,
      lib.PrivateKeyFromBase58 cfg.Funder = .ok feePayer ∧
      lib.PrivateKeyFromBase58 from_ = .ok fromPrikey ∧
      lib.PublicKeyFromBase58 contractAddress = .ok mintAddr ∧
      lib.FindAssociatedTokenAddress (lib.publicKey fromPrikey) mintAddr
        = .ok fromTokenAccount ∧
      net.GetTokenAccountBalance fromTokenAccount = .ok out ∧
      ParseInt out = .ok amount ∧ value ≤ amount ∧
      lib.PublicKeyFromBase58 to_ = .ok toAddr ∧
      lib.FindAssociatedTokenAddress toAddr mintAddr = .ok toTokenAccount ∧
      net.GetLatestBlockhash = .ok recent ∧
      payer = lib.publicKey feePayer ∧
      instrs =
        [Instruction.SetComputeUnitPrice (fillFees net cfg).1,
         Instruction.SetComputeUnitLimit (toUint32 (fillFees net cfg).2.1)] ++
        (match net.GetAccountInfo toTokenAccount with
          | .error _ =>
            [Instruction.CreateAssociatedTokenAccount (lib.publicKey feePayer) toAddr mintAddr]
          | .ok _ => []) ++
        [Instruction.TransferChecked (bigUint64 value) (toUint8 decimals) fromTokenAccount
          mintAddr toTokenAccount (lib.publicKey fromPrikey)
          (if lib.publicKey feePayer = lib.publicKey fromPrikey then
            [lib.publicKey feePayer, lib.publicKey fromPrikey]
          else [lib.publicKey feePayer])] := by
  unfold TransferToken at h
  cases h1 : lib.PrivateKeyFromBase58 cfg.Funder with
  | error e => simp [h1] at h
  | ok feePayer =>
  cases h2 : lib.PrivateKeyFromBase58 from_ with
  | error e => simp [h1, h2] at h
  | ok fromPrikey =>
  cases h3 : lib.PublicKeyFromBase58 contractAddress with
  | error e => simp [h1, h2, h3] at h
  | ok mintAddr =>
  cases h4 : lib.FindAssociatedTokenAddress (lib.publicKey fromPrikey) mintAddr with
  | error e => simp [h1, h2, h3, h4] at h
  | ok fromTokenAccount =>
  cases h5 : net.GetTokenAccountBalance fromTokenAccount with
  | error e => simp [h1, h2, h3, h4, h5] at h
  | ok out =>
  cases h6 : ParseInt out with
  | error e => simp [h1, h2, h3, h4, h5, h6] at h
  | ok amount =>
  by_cases h7 : value > amount
  · simp [h1, h2, h3, h4, h5, h6, h7] at h
  cases h8 : lib.PublicKeyFromBase58 to_ with
  | error e => simp [h1, h2, h3, h4, h5, h6, h7, h8] at h
  | ok toAddr =>
  cases h9 : lib.FindAssociatedTokenAddress toAddr mintAddr with
  | error e => simp [h1, h2, h3, h4, h5, h6, h7, h8, h9] at h
  | ok toTokenAccount =>
  cases h10 : net.GetLatestBlockhash with
  | error e => simp [h1, h2, h3, h4, h5, h6, h7, h8, h9, h10] at h
  | ok recent0 =>
  refine ⟨feePayer, fromPrikey, mintAddr, fromTokenAccount, out, amount, toAddr,
    toTokenAccount, rfl, rfl, rfl, h4, h5, h6, not_lt.mp h7, rfl, h9, ?_⟩
  simp only [h1, h2, h3, h4, h5, h6, h7, h8, h9, h10, if_false] at h
  cases hA : net.GetAccountInfo toTokenAccount <;>
  simp only [hA] at h ⊢ <;>
  (repeat' split at h) <;>
  simp at h <;> simp_all

/-- A run of `TransferToken` that tries to open the subscription channel has a signed
transaction, has signed only once, has submitted nothing before, and ends with the
submission stage of lines 336-351. -/
theorem TransferToken_submission_inv (lib : SolanaLib) (net : Network)
    (cfg : BlockchainConfig) (from_ to_ : String) (value : Int) (contractAddress : String)
    (decimals : Nat)
    (h : Call.wsConnect cfg.WsEndpoint ∈
      (TransferToken lib net cfg from_ to_ value contractAddress decimals).calls) :
    ∃ feePayer fromPrikey tx signed pre,
      lib.PrivateKeyFromBase58 cfg.Funder = .ok feePayer ∧
      lib.PrivateKeyFromBase58 from_ = .ok fromPrikey ∧
      lib.Sign tx (signerLookup lib feePayer fromPrikey) = .ok signed ∧
      (∀ t, Call.Sign t ∈ pre → t = tx) ∧
      (∀ t, Call.SendTransaction t ∉ pre) ∧
      (∀ t, Call.SendAndConfirmTransaction t ∉ pre) ∧
      TransferToken lib net cfg from_ to_ value contractAddress decimals =
        (match net.wsConnect cfg.WsEndpoint with
          | .error _ =>
            (match net.SendTransaction signed with
              | .error err => ⟨"", some err, pre ++ [Call.SendTransaction signed]⟩
              | .ok sig => ⟨lib.SignatureString sig, none, pre ++ [Call.SendTransaction signed]⟩)
          | .ok wsClient =>
            (match net.SendAndConfirmTransaction wsClient signed with
              | .error err => ⟨"", some err, pre ++ [Call.SendAndConfirmTransaction signed]⟩
              | .ok sig =>
                ⟨lib.SignatureString sig, none,
                  pre ++ [Call.SendAndConfirmTransaction signed]⟩)) := by
  generalize hT : TransferToken lib net cfg from_ to_ value contractAddress decimals = o at h ⊢
  unfold TransferToken at hT
  cases h1 : lib.PrivateKeyFromBase58 cfg.Funder with
  | error e => simp only [h1] at hT; subst hT; simp at h
  | ok feePayer =>
  cases h2 : lib.PrivateKeyFromBase58 from_ with
  | error e => simp only [h1, h2] at hT; subst hT; simp at h
  | ok fromPrikey =>
  cases h3 : lib.PublicKeyFromBase58 contractAddress with
  | error e => simp only [h1, h2, h3] at hT; subst hT; simp at h
  | ok mintAddr =>
  cases h4 : lib.FindAssociatedTokenAddress (lib.publicKey fromPrikey) mintAddr with
  | error e => simp only [h1, h2, h3, h4] at hT; subst hT; simp at h
  | ok fromTokenAccount =>
  cases h5 : net.GetTokenAccountBalance fromTokenAccount with
  | error e => simp only [h1, h2, h3, h4, h5] at hT; subst hT; simp at h
  | ok out =>
  cases h6 : ParseInt out with
  | error e => simp only [h1, h2, h3, h4, h5, h6] at hT; subst hT; simp at h
  | ok amount =>
  by_cases h7 : value > amount
  · simp only [h1, h2, h3, h4, h5, h6, h7, if_true] at hT; subst hT; simp at h
  cases h8 : lib.PublicKeyFromBase58 to_ with
  | error e => simp only [h1, h2, h3, h4, h5, h6, h7, h8, if_false] at hT; subst hT; simp at h
  | ok toAddr =>
  cases h9 : lib.FindAssociatedTokenAddress toAddr mintAddr with
  | error e =>
    simp only [h1, h2, h3, h4, h5, h6, h7, h8, h9, if_false] at hT; subst hT; simp at h
  | ok toTokenAccount =>
  cases h10 : net.GetLatestBlockhash with
  | error e =>
    simp only [h1, h2, h3, h4, h5, h6, h7, h8, h9, h10, if_false] at hT; subst hT; simp at h
  | ok recent =>
  simp only [h1, h2, h3, h4, h5, h6, h7, h8, h9, h10, if_false] at hT
  split at hT
  · subst hT; simp at h
  rename_i tx hNew
  split at hT
  · subst hT; simp at h
  rename_i signed hSign
  refine ⟨feePayer, fromPrikey, tx, signed, _, rfl, rfl, hSign, ?_, ?_, ?_, hT.symm⟩ <;>
  simp

/-- A run of `TransferCoin` that hands an instruction list to `solana.NewTransaction`
has parsed its three keys, and the list is the single transfer of lines 165-171. -/
theorem TransferCoin_assembly_inv (lib : SolanaLib) (net : Network) (cfg : BlockchainConfig)
    (from_ to_ : String) (value : Int)
    (instrs : List Instruction) (recent : Hash) (payer : PublicKey)
    (h : Call.NewTransaction instrs recent payer ∈
      (TransferCoin lib net cfg from_ to_ value).calls) :
    ∃ feePayer fromPrikey toAddr,
      lib.PrivateKeyFromBase58 cfg.Funder = .ok feePayer ∧
      lib.PrivateKeyFromBase58 from_ = .ok fromPrikey ∧
      lib.PublicKeyFromBase58 to_ = .ok toAddr ∧
      instrs =
        [Instruction.Transfer (bigUint64 value) (lib.publicKey fromPrikey) toAddr
          (lib.publicKey fromPrikey) [lib.publicKey feePayer, lib.publicKey fromPrikey]] := by
  unfold TransferCoin at h
  cases h1 : lib.PrivateKeyFromBase58 cfg.Funder with
  | error e => simp [h1] at h
  | ok feePayer =>
  cases h2 : lib.PrivateKeyFromBase58 from_ with
  | error e => simp [h1, h2] at h
  | ok fromPrikey =>
  cases h3 : lib.PublicKeyFromBase58 to_ with
  | error e => simp [h1, h2, h3] at h
  | ok toAddr =>
  cases h4 : net.GetLatestBlockhash with
  | error e => simp [h1, h2, h3, h4] at h
  | ok recent0 =>
  refine ⟨feePayer, fromPrikey, toAddr, rfl, rfl, rfl, ?_⟩
  simp only [h1, h2, h3, h4] at h
  (repeat' split at h) <;> simp at h <;> simp [h]

/-- The fee estimator is never called by `TransferCoin`. -/
theorem TransferCoin_no_GetFees (lib : SolanaLib) (net : Network) (cfg : BlockchainConfig)
    (from_ to_ : String) (value : Int) :
    Call.GetFees ∉ (TransferCoin lib net cfg from_ to_ value).calls := by
  generalize hT : TransferCoin lib net cfg from_ to_ value = o
  unfold TransferCoin at hT
  simp only at hT
  (repeat' split at hT) <;> subst hT <;> simp
/-- A run of `TransferToken` whose steps succeed up to the checkpoint fetch hands the
instruction list of lines 257-305 to `solana.NewTransaction`. -/
theorem TransferToken_assembles (lib : SolanaLib) (net : Network) (cfg : BlockchainConfig)
    (from_ to_ : String) (value : Int) (contractAddress : String) (decimals : Nat)
    (feePayer fromPrikey : PrivateKey)
    (mintAddr fromTokenAccount toAddr toTokenAccount : PublicKey)
    (out : String) (amount : Int) (recent : Hash)
    (hFunder : lib.PrivateKeyFromBase58 cfg.Funder = .ok feePayer)
    (hFrom : lib.PrivateKeyFromBase58 from_ = .ok fromPrikey)
    (hMint : lib.PublicKeyFromBase58 contractAddress = .ok mintAddr)
    (hFromAta : lib.FindAssociatedTokenAddress (lib.publicKey fromPrikey) mintAddr
      = .ok fromTokenAccount)
    (hBalance : net.GetTokenAccountBalance fromTokenAccount = .ok out)
    (hParse : ParseInt out = .ok amount) (hLe : value ≤ amount)
    (hTo : lib.PublicKeyFromBase58 to_ = .ok toAddr)
    (hToAta : lib.FindAssociatedTokenAddress toAddr mintAddr = .ok toTokenAccount)
    (hRecent : net.GetLatestBlockhash = .ok recent) :
    Call.NewTransaction
        (Instruction.SetComputeUnitPrice (fillFees net cfg).1 ::
          Instruction.SetComputeUnitLimit (toUint32 (fillFees net cfg).2.1) ::
          ((match net.GetAccountInfo toTokenAccount with
            | .error _ =>
              [Instruction.CreateAssociatedTokenAccount (lib.publicKey feePayer) toAddr
                mintAddr]
            | .ok _ => []) ++
          [Instruction.TransferChecked (bigUint64 value) (toUint8 decimals) fromTokenAccount
            mintAddr toTokenAccount (lib.publicKey fromPrikey)
            (if lib.publicKey feePayer = lib.publicKey fromPrikey then
              [lib.publicKey feePayer, lib.publicKey fromPrikey]
            else [lib.publicKey feePayer])]))
        recent (lib.publicKey feePayer) ∈
      (TransferToken lib net cfg from_ to_ value contractAddress decimals).calls := by
  generalize hT : TransferToken lib net cfg from_ to_ value contractAddress decimals = o
  unfold TransferToken at hT
  simp only [hFunder, hFrom, hMint, hFromAta, hBalance, hParse, not_lt.mpr hLe, hTo, hToAta,
    hRecent, gt_iff_lt, if_false] at hT
  cases hA : net.GetAccountInfo toTokenAccount <;>
  simp only [hA] at hT ⊢ <;>
  (repeat' split at hT) <;>
  subst hT <;> simp_all

/-! ## fillFees -/

/-- C5 (as stated) fails: with the configured defaults `GasPrice = -1` and
`GasLimit = -1` and the live fee query failing, `fillFees` returns `2^64 - 1` as
priority fee and as ceiling, the result of the source's `uint64(...)` conversions, not
the configured values. -/
theorem fillFees_negative_default_counterexample :
    sampleNetFeesDown.GetFees = .error (.lib "rpc down") ∧
    fillFees sampleNetFeesDown { sampleCfg with GasPrice := -1, GasLimit := -1 }
      = (18446744073709551615, 18446744073709551615, some (GoError.lib "rpc down")) ∧
    ((18446744073709551615 : Nat) : Int) ≠ -1 :=
  ⟨rfl, rfl, by decide⟩

/-- C5 (amended): for a configured `GasPrice` in `[0, 2^64)` the priority fee returned
after a failed live fee query equals `GasPrice` exactly, and for a configured `GasLimit`
in `[0, 2^64)` the returned ceiling equals `GasLimit` whether the query fails or
succeeds. For every configuration the error of the fee query never stops the transfer:
the run of `TransferToken` is the run in which the query returned the default, and
whenever the steps around the fee query succeed up to the checkpoint fetch, the
transaction is assembled with the default priority fee and the default ceiling as its
first two instructions. -/
theorem fillFees_fallback (lib : SolanaLib) (net : Network) (cfg : BlockchainConfig)
    (from_ to_ : String) (value : Int) (contractAddress : String) (decimals : Nat) :
    (0 ≤ cfg.GasPrice → cfg.GasPrice < 2 ^ 64 → ∀ e, net.GetFees = .error e →
      (((fillFees net cfg).1 : Nat) : Int) = cfg.GasPrice) ∧
    (0 ≤ cfg.GasLimit → cfg.GasLimit < 2 ^ 64 →
      (((fillFees net cfg).2.1 : Nat) : Int) = cfg.GasLimit) ∧
    (∀ e, net.GetFees = .error e →
      TransferToken lib net cfg from_ to_ value contractAddress decimals
        = TransferToken lib { net with GetFees := .ok (toUint64 cfg.GasPrice) } cfg
            from_ to_ value contractAddress decimals ∧
      ∀ (feePayer fromPrikey : PrivateKey)
        (mintAddr fromTokenAccount toAddr toTokenAccount : PublicKey)
        (out : String) (amount : Int) (recent : Hash),
        lib.PrivateKeyFromBase58 cfg.Funder = .ok feePayer →
        lib.PrivateKeyFromBase58 from_ = .ok fromPrikey →
        lib.PublicKeyFromBase58 contractAddress = .ok mintAddr →
        lib.FindAssociatedTokenAddress (lib.publicKey fromPrikey) mintAddr
          = .ok fromTokenAccount →
        net.GetTokenAccountBalance fromTokenAccount = .ok out →
        ParseInt out = .ok amount → value ≤ amount →
        lib.PublicKeyFromBase58 to_ = .ok toAddr →
        lib.FindAssociatedTokenAddress toAddr mintAddr = .ok toTokenAccount →
        net.GetLatestBlockhash = .ok recent →
        ∃ rest,
          Call.NewTransaction
              (Instruction.SetComputeUnitPrice (toUint64 cfg.GasPrice) ::
                Instruction.SetComputeUnitLimit (toUint32 (toUint64 cfg.GasLimit)) :: rest)
              recent (lib.publicKey feePayer) ∈
            (TransferToken lib net cfg from_ to_ value contractAddress decimals).calls) := by
  refine ⟨fun h0 h1 e he => ?_, fun h0 h1 => ?_, fun e he => ⟨?_, ?_⟩⟩
  · simp only [fillFees, he]
    exact toUint64_of_range _ h0 h1
  · have h : (fillFees net cfg).2.1 = toUint64 cfg.GasLimit := by
      unfold fillFees
      split <;> rfl
    rw [h]
    exact toUint64_of_range _ h0 h1
  · unfold TransferToken
    simp only [fillFees, he]
  · intro feePayer fromPrikey mintAddr fromTokenAccount toAddr toTokenAccount out amount
      recent hFunder hFrom hMint hFromAta hBalance hParse hLe hTo hToAta hRecent
    have hA := TransferToken_assembles lib net cfg from_ to_ value contractAddress decimals
      feePayer fromPrikey mintAddr fromTokenAccount toAddr toTokenAccount out amount recent
      hFunder hFrom hMint hFromAta hBalance hParse hLe hTo hToAta hRecent
    have hf : fillFees net cfg = (toUint64 cfg.GasPrice, toUint64 cfg.GasLimit, some e) := by
      simp only [fillFees, he]
    rw [hf] at hA
    exact ⟨_, hA⟩

/-- C5 (amended) with the fee query down and the sample defaults 1000 and 200000: both
are returned as configured, and the transfer is assembled with them. -/
theorem fillFees_fallback_witness :
    (((fillFees sampleNetFeesDown sampleCfg).1 : Nat) : Int) = 1000 ∧
    (((fillFees sampleNetFeesDown sampleCfg).2.1 : Nat) : Int) = 200000 ∧
    ∃ rest,
      Call.NewTransaction
          (Instruction.SetComputeUnitPrice (toUint64 1000) ::
            Instruction.SetComputeUnitLimit (toUint32 (toUint64 200000)) :: rest)
          ⟨99⟩ ⟨11⟩ ∈
        (TransferToken sampleLib sampleNetFeesDown sampleCfg "alice" "bob" 100 "mint" 6).calls :=
  ⟨(fillFees_fallback sampleLib sampleNetFeesDown sampleCfg "alice" "bob" 100 "mint" 6).1
      (by decide) (by decide) (.lib "rpc down") rfl,
   (fillFees_fallback sampleLib sampleNetFeesDown sampleCfg "alice" "bob" 100 "mint" 6).2.1
      (by decide) (by decide),
   ((fillFees_fallback sampleLib sampleNetFeesDown sampleCfg "alice" "bob" 100 "mint" 6).2.2
      (.lib "rpc down") rfl).2 ⟨1⟩ ⟨2⟩ ⟨50⟩ ⟨1250⟩ ⟨30⟩ ⟨3050⟩ "150" 150 ⟨99⟩
      rfl rfl rfl rfl rfl rfl (by decide) rfl rfl rfl⟩

/-! ## TransferToken: instruction list -/

/-- The instruction list that `TransferToken` hands to the assembler, by the outcome of
the account-info lookup of the destination's associated account: the set-priority-fee
directive, the set-compute-ceiling directive, one create-associated-account instruction
paid by the funder when the lookup fails with any error and none when it succeeds, then
the transfer-checked instruction. -/
theorem TransferToken_instruction_sequence (lib : SolanaLib) (net : Network)
    (cfg : BlockchainConfig) (from_ to_ : String) (value : Int) (contractAddress : String)
    (decimals : Nat) (feePayer fromPrikey : PrivateKey)
    (mintAddr toAddr fromTokenAccount toTokenAccount : PublicKey)
    (instrs : List Instruction) (recent : Hash) (payer : PublicKey)
    (hFunder : lib.PrivateKeyFromBase58 cfg.Funder = .ok feePayer)
    (hFrom : lib.PrivateKeyFromBase58 from_ = .ok fromPrikey)
    (hMint : lib.PublicKeyFromBase58 contractAddress = .ok mintAddr)
    (hTo : lib.PublicKeyFromBase58 to_ = .ok toAddr)
    (hFromAta : lib.FindAssociatedTokenAddress (lib.publicKey fromPrikey) mintAddr
      = .ok fromTokenAccount)
    (hToAta : lib.FindAssociatedTokenAddress toAddr mintAddr = .ok toTokenAccount)
    (hAssembled : Call.NewTransaction instrs recent payer ∈
      (TransferToken lib net cfg from_ to_ value contractAddress decimals).calls) :
    ((∃ e, net.GetAccountInfo toTokenAccount = .error e) →
      instrs =
        [Instruction.SetComputeUnitPrice (fillFees net cfg).1,
         Instruction.SetComputeUnitLimit (toUint32 (fillFees net cfg).2.1),
         Instruction.CreateAssociatedTokenAccount (lib.publicKey feePayer) toAddr mintAddr,
         Instruction.TransferChecked (bigUint64 value) (toUint8 decimals) fromTokenAccount
           mintAddr toTokenAccount (lib.publicKey fromPrikey)
           (if lib.publicKey feePayer = lib.publicKey fromPrikey then
             [lib.publicKey feePayer, lib.publicKey fromPrikey]
           else [lib.publicKey feePayer])]) ∧
    ((∃ info, net.GetAccountInfo toTokenAccount = .ok info) →
      instrs =
        [Instruction.SetComputeUnitPrice (fillFees net cfg).1,
         Instruction.SetComputeUnitLimit (toUint32 (fillFees net cfg).2.1),
         Instruction.TransferChecked (bigUint64 value) (toUint8 decimals) fromTokenAccount
           mintAddr toTokenAccount (lib.publicKey fromPrikey)
           (if lib.publicKey feePayer = lib.publicKey fromPrikey then
             [lib.publicKey feePayer, lib.publicKey fromPrikey]
           else [lib.publicKey feePayer])]) := by
  obtain ⟨fp, fk, ma, fta, out, amount, ta, tta, e1, e2, e3, e4, _, _, _, e8, e9, _, _, hI⟩ :=
    TransferToken_assembly_inv lib net cfg from_ to_ value contractAddress decimals
      instrs recent payer hAssembled
  rw [hFunder] at e1
  rw [hFrom] at e2
  rw [hMint] at e3
  rw [hTo] at e8
  cases e1
  cases e2
  cases e3
  cases e8
  rw [hFromAta] at e4
  rw [hToAta] at e9
  cases e4
  cases e9
  constructor
  · rintro ⟨e, he⟩
    rw [hI, he]
    rfl
  · rintro ⟨info, hinfo⟩
    rw [hI, hinfo]
    rfl

/-- The instruction list at the specification's scenario, 100 units from a balance of
150: with the destination account reported absent the list is priority fee, ceiling,
create-account, transfer-checked; with the lookup succeeding the create-account
instruction is left out. -/
theorem TransferToken_instruction_sequence_witness :
    Call.NewTransaction
        [Instruction.SetComputeUnitPrice 5000, Instruction.SetComputeUnitLimit 200000,
         Instruction.CreateAssociatedTokenAccount ⟨11⟩ ⟨30⟩ ⟨50⟩,
         Instruction.TransferChecked 100 6 ⟨1250⟩ ⟨50⟩ ⟨3050⟩ ⟨12⟩ [⟨11⟩]] ⟨99⟩ ⟨11⟩ ∈
      (TransferToken sampleLib sampleNet sampleCfg "alice" "bob" 100 "mint" 6).calls ∧
    [Instruction.SetComputeUnitPrice 5000, Instruction.SetComputeUnitLimit 200000,
     Instruction.CreateAssociatedTokenAccount ⟨11⟩ ⟨30⟩ ⟨50⟩,
     Instruction.TransferChecked 100 6 ⟨1250⟩ ⟨50⟩ ⟨3050⟩ ⟨12⟩ [⟨11⟩]]
      = [Instruction.SetComputeUnitPrice (fillFees sampleNet sampleCfg).1,
         Instruction.SetComputeUnitLimit (toUint32 (fillFees sampleNet sampleCfg).2.1),
         Instruction.CreateAssociatedTokenAccount (sampleLib.publicKey ⟨1⟩) ⟨30⟩ ⟨50⟩,
         Instruction.TransferChecked (bigUint64 100) (toUint8 6) ⟨1250⟩ ⟨50⟩ ⟨3050⟩
           (sampleLib.publicKey ⟨2⟩) [sampleLib.publicKey ⟨1⟩]] ∧
    Call.NewTransaction
        [Instruction.SetComputeUnitPrice 5000, Instruction.SetComputeUnitLimit 200000,
         Instruction.TransferChecked 100 6 ⟨1250⟩ ⟨50⟩ ⟨3050⟩ ⟨12⟩ [⟨11⟩]] ⟨99⟩ ⟨11⟩ ∈
      (TransferToken sampleLib { sampleNet with GetAccountInfo := fun _ => .ok ⟨2039280⟩ }
        sampleCfg "alice" "bob" 100 "mint" 6).calls ∧
    [Instruction.SetComputeUnitPrice 5000, Instruction.SetComputeUnitLimit 200000,
     Instruction.TransferChecked 100 6 ⟨1250⟩ ⟨50⟩ ⟨3050⟩ ⟨12⟩ [⟨11⟩]]
      = [Instruction.SetComputeUnitPrice
           (fillFees { sampleNet with GetAccountInfo := fun _ => .ok ⟨2039280⟩ } sampleCfg).1,
         Instruction.SetComputeUnitLimit (toUint32
           (fillFees { sampleNet with GetAccountInfo := fun _ => .ok ⟨2039280⟩ } sampleCfg).2.1),
         Instruction.TransferChecked (bigUint64 100) (toUint8 6) ⟨1250⟩ ⟨50⟩ ⟨3050⟩
           (sampleLib.publicKey ⟨2⟩) [sampleLib.publicKey ⟨1⟩]] :=
  ⟨by decide,
   (TransferToken_instruction_sequence sampleLib sampleNet sampleCfg "alice" "bob" 100
      "mint" 6 ⟨1⟩ ⟨2⟩ ⟨50⟩ ⟨30⟩ ⟨1250⟩ ⟨3050⟩
      [Instruction.SetComputeUnitPrice 5000, Instruction.SetComputeUnitLimit 200000,
       Instruction.CreateAssociatedTokenAccount ⟨11⟩ ⟨30⟩ ⟨50⟩,
       Instruction.TransferChecked 100 6 ⟨1250⟩ ⟨50⟩ ⟨3050⟩ ⟨12⟩ [⟨11⟩]] ⟨99⟩ ⟨11⟩
      rfl rfl rfl rfl rfl rfl (by decide)).1 ⟨GoError.ErrNotFound, rfl⟩,
   by decide,
   (TransferToken_instruction_sequence sampleLib
      { sampleNet with GetAccountInfo := fun _ => .ok ⟨2039280⟩ } sampleCfg "alice" "bob" 100
      "mint" 6 ⟨1⟩ ⟨2⟩ ⟨50⟩ ⟨30⟩ ⟨1250⟩ ⟨3050⟩
      [Instruction.SetComputeUnitPrice 5000, Instruction.SetComputeUnitLimit 200000,
       Instruction.TransferChecked 100 6 ⟨1250⟩ ⟨50⟩ ⟨3050⟩ ⟨12⟩ [⟨11⟩]] ⟨99⟩ ⟨11⟩
      rfl rfl rfl rfl rfl rfl (by decide)).2 ⟨⟨2039280⟩, rfl⟩⟩
/-- C3 fails on the code. The destination's associated account exists on-chain (its
balance query of line 275 returns 25 units), but the account-info lookup of line 281
fails with an error that is not `rpc.ErrNotFound`. `TransferToken` still puts a
create-associated-account instruction in the list it assembles: lines 281-285 insert it
on every lookup error, without comparing the error with `rpc.ErrNotFound`. -/
theorem TransferToken_create_on_lookup_error :
    sampleNetBehind.GetTokenAccountBalance ⟨3050⟩ = .ok "25" ∧
    sampleNetBehind.GetAccountInfo ⟨3050⟩ = .error (GoError.lib "node is behind") ∧
    GoError.lib "node is behind" ≠ GoError.ErrNotFound ∧
    assembled (TransferToken sampleLib sampleNetBehind sampleCfg
      "alice" "bob" 100 "mint" 6).calls
      = [[Instruction.SetComputeUnitPrice 5000, Instruction.SetComputeUnitLimit 200000,
          Instruction.CreateAssociatedTokenAccount ⟨11⟩ ⟨30⟩ ⟨50⟩,
          Instruction.TransferChecked 100 6 ⟨1250⟩ ⟨50⟩ ⟨3050⟩ ⟨12⟩ [⟨11⟩]]] :=
  ⟨rfl, rfl, by decide, rfl⟩

/-! ## TransferToken: signer list -/

/-- C4 fails on the code. With funder and source the same secret `alice` (key 12) the
signer list of the transfer-checked instruction is `[12, 12]`: two entries for the one
key. With funder `funder` (key 11) and source `alice` (key 12) the signer list is
`[11]`: the source wallet is missing. The two branches of the source's test
`feePayer.PublicKey() == fromPrikey.PublicKey()` are exchanged. -/
theorem TransferToken_signers_exchanged :
    sampleLib.publicKey ⟨2⟩ = ⟨12⟩ ∧ sampleLib.publicKey ⟨1⟩ = ⟨11⟩ ∧
    (assembled (TransferToken sampleLib sampleNet { sampleCfg with Funder := "alice" }
      "alice" "bob" 100 "mint" 6).calls).map encodedSigners = [[[⟨12⟩, ⟨12⟩]]] ∧
    (assembled (TransferToken sampleLib sampleNet sampleCfg
      "alice" "bob" 100 "mint" 6).calls).map encodedSigners = [[[⟨11⟩]]] :=
  ⟨rfl, rfl, rfl, rfl⟩

/-! ## TransferToken: submission -/

/-- C6: for the signed transaction of a run that reaches submission, the path is chosen
by the channel. If the channel cannot be opened the transaction is broadcast once,
send-and-confirm is not called, and a successful broadcast returns its identifier with
no error. If the channel opens the transaction goes to send-and-confirm, the broadcast
is not called, and the identifier observed by send-and-confirm is returned. -/
theorem TransferToken_submission_path (lib : SolanaLib) (net : Network)
    (cfg : BlockchainConfig) (from_ to_ : String) (value : Int) (contractAddress : String)
    (decimals : Nat) (feePayer fromPrikey : PrivateKey) (tx signed : Transaction)
    (hFunder : lib.PrivateKeyFromBase58 cfg.Funder = .ok feePayer)
    (hFrom : lib.PrivateKeyFromBase58 from_ = .ok fromPrikey)
    (hSignCall : Call.Sign tx ∈
      (TransferToken lib net cfg from_ to_ value contractAddress decimals).calls)
    (hSigned : lib.Sign tx (signerLookup lib feePayer fromPrikey) = .ok signed)
    (hReach : Call.wsConnect cfg.WsEndpoint ∈
      (TransferToken lib net cfg from_ to_ value contractAddress decimals).calls) :
    (∀ e, net.wsConnect cfg.WsEndpoint = .error e →
      Call.SendTransaction signed ∈
        (TransferToken lib net cfg from_ to_ value contractAddress decimals).calls ∧
      (∀ t, Call.SendAndConfirmTransaction t ∉
        (TransferToken lib net cfg from_ to_ value contractAddress decimals).calls) ∧
      (∀ sig, net.SendTransaction signed = .ok sig →
        (TransferToken lib net cfg from_ to_ value contractAddress decimals).ret
          = lib.SignatureString sig ∧
        (TransferToken lib net cfg from_ to_ value contractAddress decimals).err = none)) ∧
    (∀ ws, net.wsConnect cfg.WsEndpoint = .ok ws →
      Call.SendAndConfirmTransaction signed ∈
        (TransferToken lib net cfg from_ to_ value contractAddress decimals).calls ∧
      (∀ t, Call.SendTransaction t ∉
        (TransferToken lib net cfg from_ to_ value contractAddress decimals).calls) ∧
      (∀ sig, net.SendAndConfirmTransaction ws signed = .ok sig →
        (TransferToken lib net cfg from_ to_ value contractAddress decimals).ret
          = lib.SignatureString sig ∧
        (TransferToken lib net cfg from_ to_ value contractAddress decimals).err = none)) := by
  obtain ⟨fp, fk, tx0, signed0, pre, e1, e2, hS, hOnly, hNoSend, hNoConfirm, hT⟩ :=
    TransferToken_submission_inv lib net cfg from_ to_ value contractAddress decimals hReach
  rw [hFunder] at e1
  rw [hFrom] at e2
  cases e1
  cases e2
  have htx : tx = tx0 := by
    rw [hT] at hSignCall
    apply hOnly
    (repeat' split at hSignCall) <;> simpa using hSignCall
  subst htx
  rw [hSigned] at hS
  cases hS
  rw [hT]
  constructor
  · intro e he
    simp only [he]
    cases hs : net.SendTransaction signed <;> simp [hNoConfirm]
  · intro ws hws
    simp only [hws]
    cases hs : net.SendAndConfirmTransaction ws signed <;> simp [hNoSend]

/-- C6 on the sample transfer: with the channel refused the broadcast identifier `sig7`
is returned without error; with the channel open the identifier `sig8` observed by
send-and-confirm is returned. -/
theorem TransferToken_submission_path_witness :
    ((TransferToken sampleLib
        { sampleNet with wsConnect := fun _ => .error (.lib "connection refused") }
        sampleCfg "alice" "bob" 100 "mint" 6).ret = "sig7" ∧
      (TransferToken sampleLib
        { sampleNet with wsConnect := fun _ => .error (.lib "connection refused") }
        sampleCfg "alice" "bob" 100 "mint" 6).err = none) ∧
    ((TransferToken sampleLib sampleNet sampleCfg "alice" "bob" 100 "mint" 6).ret = "sig8" ∧
      (TransferToken sampleLib sampleNet sampleCfg "alice" "bob" 100 "mint" 6).err = none) :=
  ⟨((TransferToken_submission_path sampleLib
      { sampleNet with wsConnect := fun _ => .error (.lib "connection refused") }
      sampleCfg "alice" "bob" 100 "mint" 6 ⟨1⟩ ⟨2⟩ sampleTx sampleSigned rfl rfl
      (by decide) rfl (by decide)).1 (.lib "connection refused") rfl).2.2 ⟨7⟩ rfl,
   ((TransferToken_submission_path sampleLib sampleNet sampleCfg "alice" "bob" 100 "mint" 6
      ⟨1⟩ ⟨2⟩ sampleTx sampleSigned rfl rfl (by decide) rfl (by decide)).2
      ⟨"wss://rpc"⟩ rfl).2.2 ⟨8⟩ rfl⟩

/-- C7 (as stated) fails: the channel opens and send-and-confirm reports an error, so
`TransferToken` returns that error from the submission stage; the one-shot broadcast of
the same signed transaction would succeed and is never attempted. -/
theorem TransferToken_submission_error_counterexample :
    TransferToken sampleLib
        { sampleNet with
          SendAndConfirmTransaction := fun _ _ => .error (.lib "confirmation timeout") }
        sampleCfg "alice" "bob" 100 "mint" 6
      = ⟨"", some (GoError.lib "confirmation timeout"),
          [Call.GetTokenAccountBalance ⟨1250⟩, Call.GetFees,
           Call.GetTokenAccountBalance ⟨3050⟩, Call.GetAccountInfo ⟨3050⟩,
           Call.GetLatestBlockhash, Call.NewTransaction sampleInstructions ⟨99⟩ ⟨11⟩,
           Call.Sign sampleTx, Call.wsConnect "wss://rpc",
           Call.SendAndConfirmTransaction sampleSigned]⟩ ∧
    ({ sampleNet with
        SendAndConfirmTransaction := fun _ _ => .error (.lib "confirmation timeout") } :
      Network).SendTransaction sampleSigned = .ok ⟨7⟩ :=
  ⟨rfl, rfl⟩

/-- C7 (amended): if a run of `TransferToken` that reaches submission returns an error,
then the one path selected by the channel failed with that error: either the channel
could not be opened and the one-shot broadcast failed, or the channel opened and
send-and-confirm failed, in which case no broadcast was attempted. -/
theorem TransferToken_submission_error (lib : SolanaLib) (net : Network)
    (cfg : BlockchainConfig) (from_ to_ : String) (value : Int) (contractAddress : String)
    (decimals : Nat) (e : GoError)
    (hReach : Call.wsConnect cfg.WsEndpoint ∈
      (TransferToken lib net cfg from_ to_ value contractAddress decimals).calls)
    (hErr : (TransferToken lib net cfg from_ to_ value contractAddress decimals).err
      = some e) :
    (∃ e0 signed, net.wsConnect cfg.WsEndpoint = .error e0 ∧
      Call.SendTransaction signed ∈
        (TransferToken lib net cfg from_ to_ value contractAddress decimals).calls ∧
      net.SendTransaction signed = .error e) ∨
    (∃ ws signed, net.wsConnect cfg.WsEndpoint = .ok ws ∧
      Call.SendAndConfirmTransaction signed ∈
        (TransferToken lib net cfg from_ to_ value contractAddress decimals).calls ∧
      net.SendAndConfirmTransaction ws signed = .error e ∧
      ∀ t, Call.SendTransaction t ∉
        (TransferToken lib net cfg from_ to_ value contractAddress decimals).calls) := by
  obtain ⟨fp, fk, tx0, signed0, pre, _, _, _, _, hNoSend, _, hT⟩ :=
    TransferToken_submission_inv lib net cfg from_ to_ value contractAddress decimals hReach
  rw [hT] at hErr ⊢
  cases hw : net.wsConnect cfg.WsEndpoint with
  | error e0 =>
    left
    simp only [hw] at hErr ⊢
    cases hs : net.SendTransaction signed0 with
    | error e1 =>
      simp only [hs, Option.some.injEq] at hErr ⊢
      subst hErr
      exact ⟨e0, signed0, rfl, by simp, hs⟩
    | ok sig =>
      simp [hs] at hErr
  | ok ws =>
    right
    simp only [hw] at hErr ⊢
    cases hs : net.SendAndConfirmTransaction ws signed0 with
    | error e1 =>
      simp only [hs, Option.some.injEq] at hErr ⊢
      subst hErr
      exact ⟨ws, signed0, rfl, by simp, hs, fun t => by simp [hNoSend t]⟩
    | ok sig =>
      simp [hs] at hErr

/-- C7 (amended) on the sample transfer with the channel refused and the broadcast
rejected: the returned error is the error of the broadcast. -/
theorem TransferToken_submission_error_witness :
    Call.wsConnect "wss://rpc" ∈
      (TransferToken sampleLib
        { sampleNet with
          wsConnect := fun _ => .error (.lib "connection refused")
          SendTransaction := fun _ => .error (.lib "blockhash not found") }
        sampleCfg "alice" "bob" 100 "mint" 6).calls ∧
    (TransferToken sampleLib
        { sampleNet with
          wsConnect := fun _ => .error (.lib "connection refused")
          SendTransaction := fun _ => .error (.lib "blockhash not found") }
        sampleCfg "alice" "bob" 100 "mint" 6).err = some (GoError.lib "blockhash not found") ∧
    ((∃ e0 signed,
        (Except.error (GoError.lib "connection refused") : Except GoError WsClient)
          = .error e0 ∧
        Call.SendTransaction signed ∈
          (TransferToken sampleLib
            { sampleNet with
              wsConnect := fun _ => .error (.lib "connection refused")
              SendTransaction := fun _ => .error (.lib "blockhash not found") }
            sampleCfg "alice" "bob" 100 "mint" 6).calls ∧
        (Except.error (GoError.lib "blockhash not found") : Except GoError Signature)
          = .error (GoError.lib "blockhash not found")) ∨
      (∃ ws signed,
        (Except.error (GoError.lib "connection refused") : Except GoError WsClient)
          = .ok ws ∧
        Call.SendAndConfirmTransaction signed ∈
          (TransferToken sampleLib
            { sampleNet with
              wsConnect := fun _ => .error (.lib "connection refused")
              SendTransaction := fun _ => .error (.lib "blockhash not found") }
            sampleCfg "alice" "bob" 100 "mint" 6).calls ∧
        (Except.ok ⟨8⟩ : Except GoError Signature)
          = .error (GoError.lib "blockhash not found") ∧
        ∀ t, Call.SendTransaction t ∉
          (TransferToken sampleLib
            { sampleNet with
              wsConnect := fun _ => .error (.lib "connection refused")
              SendTransaction := fun _ => .error (.lib "blockhash not found") }
            sampleCfg "alice" "bob" 100 "mint" 6).calls)) :=
  ⟨by decide, rfl,
   TransferToken_submission_error sampleLib
    { sampleNet with
      wsConnect := fun _ => .error (.lib "connection refused")
      SendTransaction := fun _ => .error (.lib "blockhash not found") }
    sampleCfg "alice" "bob" 100 "mint" 6 (GoError.lib "blockhash not found")
    (by decide) rfl⟩

/-! ## TransferCoin -/

/-- C8 fails on the code. The list `TransferCoin` assembles for 100 units from `alice`
to `bob` is the single instruction built by `token.NewTransferInstruction`: it has no
set-priority-fee and no set-compute-ceiling directive, so it does not follow the
Instruction Builder contract, although the transfer is submitted. For the requested
amount `2^64 + 7` the instruction carries the amount 7. -/
theorem TransferCoin_missing_fee_directives :
    assembled (TransferCoin sampleLib sampleNet sampleCfg "alice" "bob" 100).calls
      = [[Instruction.Transfer 100 ⟨12⟩ ⟨30⟩ ⟨12⟩ [⟨11⟩, ⟨12⟩]]] ∧
    instructionBuilderContract [Instruction.Transfer 100 ⟨12⟩ ⟨30⟩ ⟨12⟩ [⟨11⟩, ⟨12⟩]]
      = false ∧
    (TransferCoin sampleLib sampleNet sampleCfg "alice" "bob" 100).err = none ∧
    assembled (TransferCoin sampleLib sampleNet sampleCfg "alice" "bob"
      18446744073709551623).calls
      = [[Instruction.Transfer 7 ⟨12⟩ ⟨30⟩ ⟨12⟩ [⟨11⟩, ⟨12⟩]]] :=
  ⟨rfl, rfl, rfl, rfl⟩

/-- The instruction list that `TransferCoin` hands to the assembler is exactly one
instruction, the transfer built by `token.NewTransferInstruction` from the source wallet
to the destination address with the source wallet as owner and the signer list funder,
source; its amount is the requested amount whenever that lies in `[0, 2^64)`. The list
has no fee directive and the fee estimator is not called. -/
theorem TransferCoin_instruction_sequence (lib : SolanaLib) (net : Network)
    (cfg : BlockchainConfig) (from_ to_ : String) (value : Int)
    (feePayer fromPrikey : PrivateKey) (toAddr : PublicKey)
    (instrs : List Instruction) (recent : Hash) (payer : PublicKey)
    (hFunder : lib.PrivateKeyFromBase58 cfg.Funder = .ok feePayer)
    (hFrom : lib.PrivateKeyFromBase58 from_ = .ok fromPrikey)
    (hTo : lib.PublicKeyFromBase58 to_ = .ok toAddr)
    (hAssembled : Call.NewTransaction instrs recent payer ∈
      (TransferCoin lib net cfg from_ to_ value).calls) :
    instrs =
      [Instruction.Transfer (bigUint64 value) (lib.publicKey fromPrikey) toAddr
        (lib.publicKey fromPrikey) [lib.publicKey feePayer, lib.publicKey fromPrikey]] ∧
    (0 ≤ value → value < 2 ^ 64 → ((bigUint64 value : Nat) : Int) = value) ∧
    instructionBuilderContract instrs = false ∧
    Call.GetFees ∉ (TransferCoin lib net cfg from_ to_ value).calls := by
  obtain ⟨fp, fk, ta, e1, e2, e3, hI⟩ :=
    TransferCoin_assembly_inv lib net cfg from_ to_ value instrs recent payer hAssembled
  rw [hFunder] at e1
  rw [hFrom] at e2
  rw [hTo] at e3
  cases e1
  cases e2
  cases e3
  refine ⟨hI, bigUint64_of_range value, ?_, TransferCoin_no_GetFees lib net cfg from_ to_ value⟩
  rw [hI]
  rfl

/-- The sample coin transfer of 100 units from `alice` to `bob`. -/
theorem TransferCoin_instruction_sequence_witness :
    Call.NewTransaction [Instruction.Transfer 100 ⟨12⟩ ⟨30⟩ ⟨12⟩ [⟨11⟩, ⟨12⟩]] ⟨99⟩ ⟨11⟩ ∈
      (TransferCoin sampleLib sampleNet sampleCfg "alice" "bob" 100).calls ∧
    Call.GetFees ∉ (TransferCoin sampleLib sampleNet sampleCfg "alice" "bob" 100).calls :=
  ⟨by decide,
   (TransferCoin_instruction_sequence sampleLib sampleNet sampleCfg "alice" "bob" 100
      ⟨1⟩ ⟨2⟩ ⟨30⟩ [Instruction.Transfer 100 ⟨12⟩ ⟨30⟩ ⟨12⟩ [⟨11⟩, ⟨12⟩]] ⟨99⟩ ⟨11⟩
      rfl rfl rfl (by decide)).2.2.2⟩

/-! ## TransferToken: encoded amount -/

/-- C10 fails on the code. The requested amount `-5` passes the balance pre-check
against a balance of 10, the transfer is built and submitted without error, and the
transfer-checked instruction encodes the amount 5: line 297 narrows with
`value.Uint64()`, which drops the sign, and nothing guards the narrowing. -/
theorem TransferToken_negative_amount_encoded :
    (assembled (TransferToken sampleLib
        { sampleNet with GetTokenAccountBalance := fun _ => .ok "10" }
        sampleCfg "alice" "bob" (-5) "mint" 6).calls).map encodedAmounts = [[5]] ∧
    (TransferToken sampleLib { sampleNet with GetTokenAccountBalance := fun _ => .ok "10" }
        sampleCfg "alice" "bob" (-5) "mint" 6).err = none ∧
    ((5 : Nat) : Int) ≠ -5 :=
  ⟨rfl, rfl, by decide⟩

/-- For a requested amount that is not negative, a run of `TransferToken` that passes
the balance pre-check and assembles the transaction holds exactly one transfer-checked
instruction, and the amount encoded in it equals the requested amount: the pre-check
bounds the amount by an `int64` balance, so the narrowing to 64 bits loses nothing. -/
theorem TransferToken_amount_encoded (lib : SolanaLib) (net : Network)
    (cfg : BlockchainConfig) (from_ to_ : String) (value : Int) (contractAddress : String)
    (decimals : Nat) (instrs : List Instruction) (recent : Hash) (payer : PublicKey)
    (hNonneg : 0 ≤ value)
    (hAssembled : Call.NewTransaction instrs recent payer ∈
      (TransferToken lib net cfg from_ to_ value contractAddress decimals).calls) :
    (encodedAmounts instrs).map (fun n => (n : Int)) = [value] ∧ value < 2 ^ 63 := by
  obtain ⟨fp, fk, ma, fta, out, amount, ta, tta, _, _, _, _, _, hP, hLe, _, _, _, _, hI⟩ :=
    TransferToken_assembly_inv lib net cfg from_ to_ value contractAddress decimals
      instrs recent payer hAssembled
  have hlt : value < 2 ^ 63 := lt_of_le_of_lt hLe (ParseInt_range out amount hP).2
  have henc : ((bigUint64 value : Nat) : Int) = value :=
    bigUint64_of_range value hNonneg (by omega)
  refine ⟨?_, hlt⟩
  rw [hI]
  cases net.GetAccountInfo tta <;> simp [encodedAmounts, henc]

/-- The sample transfer of 100 units from a balance of 150. -/
theorem TransferToken_amount_encoded_witness :
    (0 : Int) ≤ 100 ∧
    Call.NewTransaction sampleInstructions ⟨99⟩ ⟨11⟩ ∈
      (TransferToken sampleLib sampleNet sampleCfg "alice" "bob" 100 "mint" 6).calls ∧
    (encodedAmounts sampleInstructions).map (fun n => (n : Int)) = [100] ∧
    (100 : Int) < 2 ^ 63 :=
  ⟨by decide, by decide,
   TransferToken_amount_encoded sampleLib sampleNet sampleCfg "alice" "bob" 100 "mint" 6
    sampleInstructions ⟨99⟩ ⟨11⟩ (by decide) (by decide)⟩

end Blockchain
